import Mathlib

/-!
Shallow embedding of `src/extractor/guidance/mergable_road_detector.cpp`
(OSRM mergable-road detection) and verification of its specification.

The detector itself (orchestrator `CanMergeRoad` and the six predicates)
is transcribed from the source file.  External collaborators (graph query
surface, junction compaction, intersection enumeration, the generic road
walker, geometry utilities) are not part of the unit under study: they
are either abstracted as fields of an environment record `Env`, or, where
their concrete behaviour matters, modelled from the specification's
contract for them.  Angles and distances are rationals.
-/

namespace MergableRoad

abbrev NodeID := Nat
abbrev EdgeID := Nat
abbrev NameID := Nat
abbrev Coordinate := ℚ × ℚ

/-- Road classification attached to an edge: lane count plus the remaining
classification bits (compared only for equality by the detector). -/
structure RoadClassification where
  road_class : Nat
  num_lanes : Nat
  deriving DecidableEq, Repr

/-- Per-edge attribute record (`util::NodeBasedEdgeData`), restricted to the
fields the detector reads. -/
structure NodeBasedEdgeData where
  reversed : Bool
  travel_mode : Nat
  name_id : NameID
  roundabout : Bool
  road_classification : RoadClassification
  deriving DecidableEq, Repr

/-- Candidate road record (`MergableRoadData` / `IntersectionShapeData`):
an edge identifier and the bearing at which it departs the intersection. -/
structure MergableRoadData where
  eid : EdgeID
  bearing : ℚ
  deriving DecidableEq, Repr

/-- One entry of an enumerated intersection: an edge and its angle relative
to the arrival direction. -/
structure IntersectionRoad where
  eid : EdgeID
  angle : ℚ
  deriving DecidableEq, Repr

abbrev Intersection := List IntersectionRoad

/-- Result of a `TraverseRoad` walk with an `IntersectionFinderAccumulator`:
the edge used to arrive at the final decision point and the intersection
enumerated there. -/
structure IFResult where
  via_edge_id : EdgeID
  intersection : Intersection
  deriving DecidableEq, Repr

/-- The read-only world the detector queries: the graph surface, the
traversal collaborators and the geometry utilities, all external to the
unit under study and therefore abstracted as record fields. -/
structure Env where
  getEdgeData : EdgeID → NodeBasedEdgeData
  getTarget : EdgeID → NodeID
  adjacentEdges : NodeID → List EdgeID
  nodeCoordinates : NodeID → Coordinate
  haversineDistance : Coordinate → Coordinate → ℚ
  getConnectedRoads : NodeID → EdgeID → Intersection
  walkIF : NodeID → EdgeID → NameID → ℚ → IFResult
  walkCoords : NodeID → EdgeID → NameID → ℚ → ℚ → ℚ × List Coordinate
  sampleCoordinates : List Coordinate → ℚ → ℚ → List Coordinate
  areParallel : List Coordinate → List Coordinate → Bool
  findClosestDistance : Coordinate → List Coordinate → ℚ

/-- Out-degree of a node: the number of its adjacent edges. -/
def Env.getOutDegree (env : Env) (n : NodeID) : Nat :=
  (env.adjacentEdges n).length

/-- Modelled from the spec: the geometry utility computing the minimal
circular bearing deviation of two angles, a value in [0, 180]. -/
def angularDeviation (a b : ℚ) : ℚ :=
  min |a - b| (360 - |a - b|)

/-- Modelled from the spec: angle normalization to the valid range
[0, 360), used on an angle offset by 180. -/
def restrictAngleToValidRange (a : ℚ) : ℚ :=
  if a < 0 then a + 360 else if a ≥ 360 then a - 360 else a

/-- One step of the closest-turn minimization: keep whichever of the
current best record and the next record deviates less from the target. -/
def pickCloser (target : ℚ) (best : Option IntersectionRoad)
    (r : IntersectionRoad) : Option IntersectionRoad :=
  match best with
  | none => some r
  | some b =>
      if angularDeviation r.angle target < angularDeviation b.angle target then some r
      else some b

/-- Modelled from the spec: the closest-turn lookup of an enumerated
intersection.  Returns the record whose angle is nearest the target among
those satisfying the filter, or a not-found sentinel (here: none). -/
def findClosestTurnFilter (xs : Intersection) (target : ℚ)
    (keep : IntersectionRoad → Bool) : Option IntersectionRoad :=
  (xs.filter keep).foldl (pickCloser target) none

/-- Closest-turn lookup with no filter. -/
def findClosestTurn (xs : Intersection) (target : ℚ) : Option IntersectionRoad :=
  findClosestTurnFilter xs target (fun _ => true)

/-- Modelled from the spec: junction compaction (SkipDegreeTwoNodes).
Follow the chain of pass-through (degree-two) nodes and return the first
genuine decision point reached, as the node the final edge departs from
together with that edge (the decision point is the edge's target).
Fuel bounds the walk. -/
def skipAux (env : Env) : Nat → NodeID → EdgeID → NodeID × EdgeID
  | 0, node, edge => (node, edge)
  | Nat.succ fuel, node, edge =>
    let t := env.getTarget edge
    if env.getOutDegree t = 2 then
      match (env.adjacentEdges t).find? (fun e => env.getTarget e ≠ node) with
      | some e2 => skipAux env fuel t e2
      | none => (node, edge)
    else (node, edge)

/-- Result of junction compaction: the node before the decision point and
the edge used to arrive (the decision point is the edge's target). -/
structure SkipResult where
  nid : NodeID
  via_eid : EdgeID
  deriving DecidableEq, Repr

/-- Modelled from the spec: junction compaction entry point. -/
def skipDegreeTwoNodes (env : Env) (node : NodeID) (edge : EdgeID) : SkipResult :=
  let p := skipAux env 100 node edge
  ⟨p.1, p.2⟩

/-- Fixed constants of the guidance module. -/
def ASSUMED_LANE_WIDTH : ℚ := 13 / 4

/-- Modelled from the spec: the narrow-turn tolerance constant. -/
def NARROW_TURN_ANGLE : ℚ := 25

/-- Modelled from the spec: the straight-ahead angle. -/
def STRAIGHT_ANGLE : ℚ := 180

/-- Modelled from the spec: the fuzzy-angle tolerance constant. -/
def FUZZY_ANGLE_DIFFERENCE : ℚ := 15

/-- Source: the filter built by makeCheckRoadForName.  It keeps (per the
spec contract of the closest-turn lookup, which retains records satisfying
the filter) exactly the roads whose name differs from the given one. -/
def makeCheckRoadForName (name_id : NameID) (env : Env) : IntersectionRoad → Bool :=
  fun road => name_id ≠ (env.getEdgeData road.eid).name_id

/-- Source: RoadDataIsCompatible.  Reversed flags must differ, travel
modes, names and road classifications must agree. -/
def RoadDataIsCompatible (lhs_edge_data rhs_edge_data : NodeBasedEdgeData) : Bool :=
  if lhs_edge_data.reversed = rhs_edge_data.reversed then false
  else if lhs_edge_data.travel_mode ≠ rhs_edge_data.travel_mode then false
  else if lhs_edge_data.name_id ≠ rhs_edge_data.name_id then false
  else lhs_edge_data.road_classification = rhs_edge_data.road_classification

/-- Source: IsTrafficLoop.  Skipping pass-through nodes from the
intersection along the road must not return to the intersection. -/
def IsTrafficLoop (env : Env) (intersection_node : NodeID) (road : MergableRoadData) : Bool :=
  let connection := skipDegreeTwoNodes env intersection_node road.eid
  intersection_node = env.getTarget connection.via_eid

/-- Source: the helper inside ConnectAgain checking that a node has
out-degree exactly three and that all its adjacent edges share the name of
the first adjacent edge. -/
def all_same_name_and_degree_three (env : Env) (nid : NodeID) : Bool :=
  if env.getOutDegree nid ≠ 3 then false
  else
    match env.adjacentEdges nid with
    | [] => false
    | e :: _ =>
      let required_name_id := (env.getEdgeData e).name_id
      (env.adjacentEdges nid).all (fun eid => (env.getEdgeData eid).name_id = required_name_id)

/-- Source: ConnectAgain.  Both sides must reach the same candidate
decision node distinct from the intersection; then homogeneous degree-three
conditions and a 15 m distance bound decide the verdict. -/
def ConnectAgain (env : Env) (intersection_node : NodeID)
    (lhs rhs : MergableRoadData) : Bool :=
  let left_connection := skipDegreeTwoNodes env intersection_node lhs.eid
  let right_connection := skipDegreeTwoNodes env intersection_node rhs.eid
  let left_candidate := env.getTarget left_connection.via_eid
  let right_candidate := env.getTarget right_connection.via_eid
  if ¬(left_candidate = right_candidate ∧ left_candidate ≠ intersection_node) then false
  else
    let degree_three_connect_in := all_same_name_and_degree_three env intersection_node
    let degree_three_connect_out := all_same_name_and_degree_three env left_candidate
    if ¬degree_three_connect_in ∧ ¬degree_three_connect_out then false
    else if degree_three_connect_in ∧ degree_three_connect_out then true
    else
      env.haversineDistance (env.nodeCoordinates intersection_node)
        (env.nodeCoordinates left_candidate) < 15

/-- Lane count of a road's edge, floored at one. -/
def numLanes (env : Env) (road : MergableRoadData) : Nat :=
  max (env.getEdgeData road.eid).road_classification.num_lanes 1

/-- Source: one side of IsNarrowTriangle (lines 136-148 resp. 157-165):
walk along the given edge with the shared selector, then, if the resulting
intersection offers no turn sufficiently close to the given corner angle,
walk once more from there along the turn closest to 180.  The closest-turn
dereferences are partial, hence the Option result. -/
def trianglePart (env : Env) (selName : NameID) (selBearing : ℚ)
    (start : NodeID) (eid : EdgeID) (cornerAngle : ℚ) : Option IFResult :=
  let acc0 := env.walkIF start eid selName selBearing
  match findClosestTurn acc0.intersection cornerAngle with
  | none => none
  | some t =>
    if angularDeviation t.angle cornerAngle > NARROW_TURN_ANGLE then
      match findClosestTurn acc0.intersection 180 with
      | none => none
      | some t180 =>
          some (env.walkIF (env.getTarget acc0.via_edge_id) t180.eid selName selBearing)
    else some acc0

/-- Source: IsNarrowTriangle, with the selection-strategy name made an
explicit parameter (the source builds the strategy from the left-hand
road's name).  Unchecked closest-turn dereferences make it partial. -/
def IsNarrowTriangleWith (env : Env) (selName : NameID) (intersection_node : NodeID)
    (lhs rhs : MergableRoadData) : Option Bool :=
  match trianglePart env selName lhs.bearing intersection_node lhs.eid 90 with
  | none => none
  | some left_accumulator =>
    let distance_to_triangle :=
      env.haversineDistance (env.nodeCoordinates intersection_node)
        (env.nodeCoordinates (env.getTarget left_accumulator.via_edge_id))
    if distance_to_triangle > 80 then some false
    else
      match trianglePart env selName lhs.bearing intersection_node rhs.eid 270 with
      | none => none
      | some right_accumulator =>
        match findClosestTurn left_accumulator.intersection 90 with
        | none => none
        | some connector_turn =>
          if angularDeviation connector_turn.angle 90 > NARROW_TURN_ANGLE then some false
          else
            let assumed_road_width :=
              ((numLanes env lhs + numLanes env rhs : Nat) : ℚ) * ASSUMED_LANE_WIDTH
            let distance_between_triangle_corners :=
              env.haversineDistance
                (env.nodeCoordinates (env.getTarget left_accumulator.via_edge_id))
                (env.nodeCoordinates (env.getTarget right_accumulator.via_edge_id))
            if distance_between_triangle_corners > assumed_road_width + 10 then some false
            else
              let connect_accumulator :=
                env.walkIF (env.getTarget left_accumulator.via_edge_id)
                  connector_turn.eid selName lhs.bearing
              some (decide (env.getTarget connect_accumulator.via_edge_id =
                env.getTarget right_accumulator.via_edge_id))

/-- Source: IsNarrowTriangle, whose selection strategy is built from the
left-hand road's name identifier. -/
def IsNarrowTriangle (env : Env) (intersection_node : NodeID)
    (lhs rhs : MergableRoadData) : Option Bool :=
  IsNarrowTriangleWith env ((env.getEdgeData lhs.eid).name_id) intersection_node lhs rhs

/-- Source: the per-side coordinate walk of HaveSameDirection: traverse up
to the given length with the straightmost-by-name selector built from the
walked edge's own name and the left-hand bearing, returning the
accumulated length and the collected coordinates. -/
def getCoordinatesAlongWay (env : Env) (intersection_node : NodeID)
    (lhsBearing : ℚ) (edge_id : EdgeID) (max_length : ℚ) : ℚ × List Coordinate :=
  env.walkCoords intersection_node edge_id (env.getEdgeData edge_id).name_id lhsBearing max_length

/-- Source: the sample-then-prune step of HaveSameDirection: resample over
the 100 m horizon, then discard the first third of the points. -/
def prunedPolyline (env : Env) (coords : List Coordinate) : List Coordinate :=
  let sampled := env.sampleCoordinates coords 100 5
  sampled.drop (sampled.length / 3)

/-- Source: HaveSameDirection. -/
def HaveSameDirection (env : Env) (intersection_node : NodeID)
    (lhs rhs : MergableRoadData) : Bool :=
  if angularDeviation lhs.bearing rhs.bearing > 95 then false
  else
    let leftWalk := getCoordinatesAlongWay env intersection_node lhs.bearing lhs.eid 100
    if leftWalk.1 ≤ 40 then false
    else
      let rightWalk := getCoordinatesAlongWay env intersection_node lhs.bearing rhs.eid 100
      if rightWalk.1 ≤ 40 then false
      else
        let coordinates_to_the_left := prunedPolyline env leftWalk.2
        let coordinates_to_the_right := prunedPolyline env rightWalk.2
        if ¬(env.areParallel coordinates_to_the_left coordinates_to_the_right) then false
        else
          let distance_between_roads :=
            env.findClosestDistance
              (coordinates_to_the_left.getD (coordinates_to_the_left.length / 2) (0, 0))
              coordinates_to_the_right
          let combined_road_width :=
            (1 / 2 : ℚ) *
              ((max (env.getEdgeData lhs.eid).road_classification.num_lanes 1 +
                max (env.getEdgeData rhs.eid).road_classification.num_lanes 1 : Nat) : ℚ) *
              ASSUMED_LANE_WIDTH
          decide (distance_between_roads ≤ combined_road_width + 8)

/-- Source: the intersection enumerated at the next genuine decision node
along a road, as used by IsLinkRoad. -/
def linkIntersection (env : Env) (intersection_node : NodeID)
    (road : MergableRoadData) : Intersection :=
  let p := skipDegreeTwoNodes env intersection_node road.eid
  env.getConnectedRoads p.nid p.via_eid

/-- Source: IsLinkRoad.  The second closest-turn dereference is unchecked
in the source, hence the Option result. -/
def IsLinkRoad (env : Env) (intersection_node : NodeID)
    (road : MergableRoadData) : Option Bool :=
  let next_intersection_parameters := skipDegreeTwoNodes env intersection_node road.eid
  let next_intersection_along_road := linkIntersection env intersection_node road
  let requested_name := (env.getEdgeData road.eid).name_id
  match findClosestTurnFilter next_intersection_along_road STRAIGHT_ANGLE
      (makeCheckRoadForName requested_name env) with
  | none => some false
  | some next_road_along_path =>
    match findClosestTurn next_intersection_along_road
        (restrictAngleToValidRange (next_road_along_path.angle + 180)) with
    | none => none
    | some opposite_of_next_road_along_path =>
      if env.getTarget opposite_of_next_road_along_path.eid =
          next_intersection_parameters.nid then some false
      else if angularDeviation (angularDeviation next_road_along_path.angle 180)
          (angularDeviation opposite_of_next_road_along_path.angle 0) <
          FUZZY_ANGLE_DIFFERENCE then some false
      else
        some (decide (angularDeviation opposite_of_next_road_along_path.angle
            next_road_along_path.angle ≥ 160) &&
          RoadDataIsCompatible (env.getEdgeData next_road_along_path.eid)
            (env.getEdgeData opposite_of_next_road_along_path.eid))

/-- Source: the target of a candidate road's edge. -/
def road_target (env : Env) (road : MergableRoadData) : NodeID :=
  env.getTarget road.eid

/-- Source: CanMergeRoad, the admissibility orchestrator.  Note that the
self-loop guard tests the left-hand target twice, exactly as in the
source.  Partiality of the link-road and narrow-triangle predicates is
propagated. -/
def CanMergeRoad (env : Env) (intersection_node : NodeID)
    (lhs rhs : MergableRoadData) : Option Bool :=
  if angularDeviation lhs.bearing rhs.bearing > 95 then some false
  else
    let lhs_edge_data := env.getEdgeData lhs.eid
    let rhs_edge_data := env.getEdgeData rhs.eid
    if lhs_edge_data.roundabout = true ∨ rhs_edge_data.roundabout = true then some false
    else if ¬(RoadDataIsCompatible lhs_edge_data rhs_edge_data = true) then some false
    else if road_target env lhs = intersection_node ∨
        road_target env lhs = intersection_node then some false
    else if IsTrafficLoop env intersection_node lhs = true ∨
        IsTrafficLoop env intersection_node rhs = true then some false
    else if ConnectAgain env intersection_node lhs rhs = true then some true
    else
      match IsLinkRoad env intersection_node lhs with
      | none => none
      | some true => some false
      | some false =>
        match IsLinkRoad env intersection_node rhs with
        | none => none
        | some true => some false
        | some false =>
          match IsNarrowTriangle env intersection_node lhs rhs with
          | none => none
          | some true => some true
          | some false => some (HaveSameDirection env intersection_node lhs rhs)

/-- Variant of the orchestrator whose narrow-triangle selection strategy is
built from the right-hand road's name identifier instead of the left-hand
one; used to verify that the two strategies select the same edges. -/
def CanMergeRoadSelectorFromRhs (env : Env) (intersection_node : NodeID)
    (lhs rhs : MergableRoadData) : Option Bool :=
  if angularDeviation lhs.bearing rhs.bearing > 95 then some false
  else
    let lhs_edge_data := env.getEdgeData lhs.eid
    let rhs_edge_data := env.getEdgeData rhs.eid
    if lhs_edge_data.roundabout = true ∨ rhs_edge_data.roundabout = true then some false
    else if ¬(RoadDataIsCompatible lhs_edge_data rhs_edge_data = true) then some false
    else if road_target env lhs = intersection_node ∨
        road_target env lhs = intersection_node then some false
    else if IsTrafficLoop env intersection_node lhs = true ∨
        IsTrafficLoop env intersection_node rhs = true then some false
    else if ConnectAgain env intersection_node lhs rhs = true then some true
    else
      match IsLinkRoad env intersection_node lhs with
      | none => none
      | some true => some false
      | some false =>
        match IsLinkRoad env intersection_node rhs with
        | none => none
        | some true => some false
        | some false =>
          match IsNarrowTriangleWith env ((env.getEdgeData rhs.eid).name_id)
              intersection_node lhs rhs with
          | none => none
          | some true => some true
          | some false => some (HaveSameDirection env intersection_node lhs rhs)

/-! ### Concrete instantiations used as test inputs -/

/-- A trivial environment all concrete test environments override. -/
def baseEnv : Env where
  getEdgeData := fun _ => ⟨false, 0, 5, false, ⟨0, 1⟩⟩
  getTarget := fun _ => 0
  adjacentEdges := fun _ => []
  nodeCoordinates := fun _ => (0, 0)
  haversineDistance := fun _ _ => 0
  getConnectedRoads := fun _ _ => []
  walkIF := fun _ _ _ _ => ⟨0, []⟩
  walkCoords := fun _ _ _ _ _ => (0, [])
  sampleCoordinates := fun c _ _ => c
  areParallel := fun _ _ => false
  findClosestDistance := fun _ _ => 0

/-- Environment exposing the self-loop guard: node 0 has out-degree two,
edge 11 is a self-loop at node 0, edge 10 leads to node 1, whose three
adjacent edges all carry the shared name, and all distances are 10 m. -/
def envSelfLoop : Env :=
  { baseEnv with
    getEdgeData := fun e =>
      if e = 11 then ⟨true, 0, 5, false, ⟨0, 1⟩⟩ else ⟨false, 0, 5, false, ⟨0, 1⟩⟩
    getTarget := fun e => if e = 10 then 1 else if e = 11 then 0 else 5
    adjacentEdges := fun n => if n = 0 then [11, 10] else if n = 1 then [12, 13, 14] else []
    haversineDistance := fun _ _ => 10 }

/-- The left-hand candidate at node 0 in the self-loop environment. -/
def roadToOne : MergableRoadData := ⟨10, 0⟩

/-- The right-hand candidate at node 0 in the self-loop environment: its
edge is the self-loop. -/
def roadLoop : MergableRoadData := ⟨11, 0⟩

/-- Environment for a clean short reconvergence: nodes 0 and 1 both have
out-degree three with all adjacent edges sharing one name, and the two
candidate edges 10 and 11 both lead from node 0 to node 1. -/
def envReconverge : Env :=
  { baseEnv with
    getEdgeData := fun e =>
      if e = 11 then ⟨true, 0, 5, false, ⟨0, 1⟩⟩ else ⟨false, 0, 5, false, ⟨0, 1⟩⟩
    getTarget := fun e =>
      if e = 10 then 1 else if e = 11 then 1 else if e = 12 then 9 else 0
    adjacentEdges := fun n => if n = 0 then [10, 11, 12] else if n = 1 then [13, 14, 15] else []
    haversineDistance := fun _ _ => 10 }

/-- The left-hand candidate of the reconvergence environment. -/
def roadReconA : MergableRoadData := ⟨10, 0⟩

/-- The right-hand candidate of the reconvergence environment. -/
def roadReconB : MergableRoadData := ⟨11, 0⟩

/-- Environment realizing a narrow triangle whose left corner lies exactly
80 m from the intersection: walks from node 0 along edges 10 and 11 end at
nodes 1 and 2; the left corner offers a 90-degree connecting turn (edge 20)
whose walk ends at the right corner. -/
def envTriangle : Env :=
  { baseEnv with
    getTarget := fun e => if e = 10 then 1 else if e = 11 then 2 else if e = 30 then 2 else 0
    nodeCoordinates := fun n =>
      if n = 0 then (0, 0) else if n = 1 then (1, 0) else if n = 2 then (1, 1) else (9, 9)
    haversineDistance := fun a b =>
      if a = (0, 0) ∧ b = (1, 0) then 80 else if a = (1, 0) ∧ b = (1, 1) then 5 else 0
    walkIF := fun s e _ _ =>
      if s = 0 ∧ e = 10 then ⟨10, [⟨20, 90⟩]⟩
      else if s = 0 ∧ e = 11 then ⟨11, [⟨21, 270⟩]⟩
      else if s = 1 ∧ e = 20 then ⟨30, [⟨40, 90⟩]⟩
      else ⟨0, []⟩ }

/-- The same triangle with the left corner moved to 80.01 m. -/
def envTriangleFar : Env :=
  { envTriangle with
    haversineDistance := fun a b =>
      if a = (0, 0) ∧ b = (1, 0) then 8001 / 100
      else if a = (1, 0) ∧ b = (1, 1) then 5 else 0 }

/-- The left-hand candidate of the triangle environments. -/
def roadTriL : MergableRoadData := ⟨10, 0⟩

/-- The right-hand candidate of the triangle environments. -/
def roadTriR : MergableRoadData := ⟨11, 0⟩

/-- Environment whose road walks always produce the same nonempty
intersection. -/
def envWalkNonempty : Env :=
  { baseEnv with walkIF := fun _ _ _ _ => ⟨0, [⟨40, 90⟩]⟩ }

/-- A candidate road on edge 0. -/
def roadZero : MergableRoadData := ⟨0, 0⟩

/-- A candidate road on edge 1. -/
def roadOne : MergableRoadData := ⟨1, 0⟩

end MergableRoad

/-! ### Helper lemmas -/

namespace MergableRoad

theorem name_id_eq_of_compatible {l r : NodeBasedEdgeData}
    (h : RoadDataIsCompatible l r = true) : l.name_id = r.name_id := by
  unfold RoadDataIsCompatible at h
  split_ifs at h with h1 h2 h3
  · exact not_ne_iff.mp h3

theorem pickCloser_isSome (target : ℚ) (best : Option IntersectionRoad)
    (r : IntersectionRoad) : (pickCloser target best r).isSome = true := by
  cases best with
  | none => rfl
  | some b =>
      show (if angularDeviation r.angle target < angularDeviation b.angle target
        then some r else some b).isSome = true
      split <;> rfl

theorem foldl_pickCloser_isSome (target : ℚ) (xs : List IntersectionRoad) :
    ∀ best : Option IntersectionRoad, best.isSome = true →
      ((xs.foldl (pickCloser target) best)).isSome = true := by
  induction xs with
  | nil => intro b h; simpa using h
  | cons x xs ih =>
      intro b h
      rw [List.foldl_cons]
      exact ih _ (pickCloser_isSome target b x)

theorem findClosestTurn_isSome {xs : Intersection} (target : ℚ) (h : xs ≠ []) :
    (findClosestTurn xs target).isSome = true := by
  unfold findClosestTurn findClosestTurnFilter
  cases xs with
  | nil => exact absurd rfl h
  | cons x xs =>
      rw [List.filter_cons_of_pos rfl]
      rw [List.foldl_cons]
      exact foldl_pickCloser_isSome target _ _ (by simpa using pickCloser_isSome target none x)

theorem ne_nil_of_findClosestTurnFilter_eq_some {xs : Intersection} {target : ℚ}
    {keep : IntersectionRoad → Bool} {r : IntersectionRoad}
    (h : findClosestTurnFilter xs target keep = some r) : xs ≠ [] := by
  intro hnil
  subst hnil
  simp [findClosestTurnFilter] at h

end MergableRoad

namespace MergableRoad

/-- C8: RoadDataIsCompatible holds exactly when the reversed flags differ,
the travel modes are equal, the name identifiers are equal and the road
classifications are equal. -/
theorem roadDataIsCompatible_iff (l r : NodeBasedEdgeData) :
    RoadDataIsCompatible l r = true ↔
      (l.reversed ≠ r.reversed ∧ l.travel_mode = r.travel_mode ∧
       l.name_id = r.name_id ∧ l.road_classification = r.road_classification) := by
  unfold RoadDataIsCompatible
  split_ifs with h1 h2 h3 <;>
    simp_all [decide_eq_true_eq, not_not]

/-- C4: ConnectAgain accepts exactly when both junction-compaction walks
reach one shared candidate decision node distinct from the intersection
node, and then either both endpoints are homogeneous degree-three, or
exactly one is and the two nodes lie strictly less than 15 m apart. -/
theorem connectAgain_characterization (env : Env) (n : NodeID)
    (lhs rhs : MergableRoadData) :
    ConnectAgain env n lhs rhs = true ↔
      (env.getTarget (skipDegreeTwoNodes env n lhs.eid).via_eid =
         env.getTarget (skipDegreeTwoNodes env n rhs.eid).via_eid ∧
       env.getTarget (skipDegreeTwoNodes env n lhs.eid).via_eid ≠ n ∧
       ((all_same_name_and_degree_three env n = true ∧
         all_same_name_and_degree_three env
           (env.getTarget (skipDegreeTwoNodes env n lhs.eid).via_eid) = true) ∨
        (all_same_name_and_degree_three env n ≠
           all_same_name_and_degree_three env
             (env.getTarget (skipDegreeTwoNodes env n lhs.eid).via_eid) ∧
         env.haversineDistance (env.nodeCoordinates n)
           (env.nodeCoordinates
             (env.getTarget (skipDegreeTwoNodes env n lhs.eid).via_eid)) < 15))) := by
  simp only [ConnectAgain]
  by_cases hA : (env.getTarget (skipDegreeTwoNodes env n lhs.eid).via_eid =
      env.getTarget (skipDegreeTwoNodes env n rhs.eid).via_eid ∧
      env.getTarget (skipDegreeTwoNodes env n lhs.eid).via_eid ≠ n)
  · obtain ⟨he, hn⟩ := hA
    rw [if_neg (not_not_intro ⟨he, hn⟩)]
    cases hdin : all_same_name_and_degree_three env n <;>
      cases hdout : all_same_name_and_degree_three env
        (env.getTarget (skipDegreeTwoNodes env n lhs.eid).via_eid)
    · rw [if_pos (by simp)]
      constructor
      · intro h; exact absurd h (by simp)
      · rintro ⟨-, -, hor⟩
        rcases hor with ⟨hx, -⟩ | ⟨hne, -⟩
        · exact absurd hx (by simp)
        · exact absurd rfl hne
    · rw [if_neg (by simp), if_neg (by simp), decide_eq_true_eq]
      constructor
      · intro hd; exact ⟨he, hn, Or.inr ⟨by simp, hd⟩⟩
      · rintro ⟨-, -, hor⟩
        rcases hor with ⟨hx, -⟩ | ⟨-, hd⟩
        · exact absurd hx (by simp)
        · exact hd
    · rw [if_neg (by simp), if_neg (by simp), decide_eq_true_eq]
      constructor
      · intro hd; exact ⟨he, hn, Or.inr ⟨by simp, hd⟩⟩
      · rintro ⟨-, -, hor⟩
        rcases hor with ⟨-, hx⟩ | ⟨-, hd⟩
        · exact absurd hx (by simp)
        · exact hd
    · rw [if_neg (by simp), if_pos ⟨rfl, rfl⟩]
      exact Iff.intro (fun _ => ⟨he, hn, Or.inl ⟨rfl, rfl⟩⟩) (fun _ => rfl)
  · rw [if_pos hA]
    constructor
    · intro h; exact absurd h (by simp)
    · rintro ⟨he, hn, -⟩
      exact absurd ⟨he, hn⟩ hA
end MergableRoad

namespace MergableRoad

/-- C5: HaveSameDirection accepts exactly when the bearings deviate by at
most 95 degrees, both coordinate walks accumulate strictly more than 40 m,
the sampled-and-pruned polylines are parallel, and the distance from the
pruned left polyline's midpoint to the closest point of the pruned right
polyline is at most half the summed floored lane counts times the lane
width plus an 8 m margin. -/
theorem haveSameDirection_characterization (env : Env) (n : NodeID)
    (lhs rhs : MergableRoadData) :
    HaveSameDirection env n lhs rhs = true ↔
      (angularDeviation lhs.bearing rhs.bearing ≤ 95 ∧
       40 < (getCoordinatesAlongWay env n lhs.bearing lhs.eid 100).1 ∧
       40 < (getCoordinatesAlongWay env n lhs.bearing rhs.eid 100).1 ∧
       env.areParallel
         (prunedPolyline env (getCoordinatesAlongWay env n lhs.bearing lhs.eid 100).2)
         (prunedPolyline env (getCoordinatesAlongWay env n lhs.bearing rhs.eid 100).2) = true ∧
       env.findClosestDistance
           ((prunedPolyline env (getCoordinatesAlongWay env n lhs.bearing lhs.eid 100).2).getD
             ((prunedPolyline env (getCoordinatesAlongWay env n lhs.bearing lhs.eid 100).2).length / 2)
             (0, 0))
           (prunedPolyline env (getCoordinatesAlongWay env n lhs.bearing rhs.eid 100).2) ≤
         (1 / 2 : ℚ) *
           ((max (env.getEdgeData lhs.eid).road_classification.num_lanes 1 +
             max (env.getEdgeData rhs.eid).road_classification.num_lanes 1 : Nat) : ℚ) *
           ASSUMED_LANE_WIDTH + 8) := by
  simp only [HaveSameDirection]
  split_ifs with h1 h2 h3 h4
  · constructor
    · intro h; exact absurd h (by simp)
    · rintro ⟨hle, -⟩
      exact absurd h1 (not_lt.mpr hle)
  · constructor
    · intro h; exact absurd h (by simp)
    · rintro ⟨-, hgt, -⟩
      exact absurd h2 (not_le.mpr hgt)
  · constructor
    · intro h; exact absurd h (by simp)
    · rintro ⟨-, -, hgt, -⟩
      exact absurd h3 (not_le.mpr hgt)
  · rw [decide_eq_true_eq]
    constructor
    · intro hd
      exact ⟨not_lt.mp h1, not_le.mp h2, not_le.mp h3, h4, hd⟩
    · rintro ⟨-, -, -, -, hd⟩
      exact hd
  · constructor
    · intro h; exact absurd h (by simp)
    · rintro ⟨-, -, -, hpar, -⟩
      exact h4 hpar

end MergableRoad

namespace MergableRoad

unseal Rat.add Rat.mul Rat.sub Rat.inv in
/-- C1: evaluation of the orchestrator at a concrete input on which the
right-hand candidate's edge is a self-loop at the intersection node, yet
the verdict is acceptance: the self-loop guard of the source tests the
left-hand edge's target twice and never the right-hand edge's. -/
theorem canMergeRoad_selfLoop_rhs_accepted :
    road_target envSelfLoop roadLoop = 0 ∧
    CanMergeRoad envSelfLoop 0 roadToOne roadLoop = some true := by
  exact ⟨by decide, by decide⟩

unseal Rat.add Rat.mul Rat.sub Rat.inv in
/-- C2 counterexample: swapping the two candidates flips the verdict at a
concrete input, because the self-loop guard only inspects the first
candidate. -/
theorem canMergeRoad_swap_counterexample :
    ¬ (CanMergeRoad envSelfLoop 0 roadToOne roadLoop =
       CanMergeRoad envSelfLoop 0 roadLoop roadToOne) := by
  decide

unseal Rat.add Rat.mul Rat.sub Rat.inv in
/-- C2 (amended): swapping the two candidate roads does not always
preserve the verdict of CanMergeRoad. -/
theorem canMergeRoad_not_symmetric :
    ∃ (env : Env) (n : NodeID) (a b : MergableRoadData),
      CanMergeRoad env n a b ≠ CanMergeRoad env n b a :=
  ⟨envSelfLoop, 0, roadToOne, roadLoop, by decide⟩

/-- C3: whenever the five leading vetoes all pass and ConnectAgain holds,
the orchestrator accepts, regardless of the link-road, narrow-triangle and
same-direction predicates. -/
theorem connectAgain_overrides_later_checks (env : Env) (n : NodeID)
    (lhs rhs : MergableRoadData)
    (h1 : angularDeviation lhs.bearing rhs.bearing ≤ 95)
    (h2 : (env.getEdgeData lhs.eid).roundabout = false)
    (h3 : (env.getEdgeData rhs.eid).roundabout = false)
    (h4 : RoadDataIsCompatible (env.getEdgeData lhs.eid) (env.getEdgeData rhs.eid) = true)
    (h5 : road_target env lhs ≠ n)
    (h6 : road_target env rhs ≠ n)
    (h7 : IsTrafficLoop env n lhs = false)
    (h8 : IsTrafficLoop env n rhs = false)
    (h9 : ConnectAgain env n lhs rhs = true) :
    CanMergeRoad env n lhs rhs = some true := by
  simp only [CanMergeRoad]
  rw [if_neg (not_lt.mpr h1)]
  rw [if_neg (by simp [h2, h3])]
  rw [if_neg (not_not_intro h4)]
  rw [if_neg (by simp [h5])]
  rw [if_neg (by simp [h7, h8])]
  rw [if_pos h9]

end MergableRoad

namespace MergableRoad

unseal Rat.add Rat.mul Rat.sub Rat.inv in
/-- C3 witness: in the reconvergence environment all five leading vetoes
pass, ConnectAgain holds, and the orchestrator accepts. -/
theorem connectAgain_overrides_later_checks_witness :
    angularDeviation roadReconA.bearing roadReconB.bearing ≤ 95 ∧
    (envReconverge.getEdgeData roadReconA.eid).roundabout = false ∧
    (envReconverge.getEdgeData roadReconB.eid).roundabout = false ∧
    RoadDataIsCompatible (envReconverge.getEdgeData roadReconA.eid)
      (envReconverge.getEdgeData roadReconB.eid) = true ∧
    road_target envReconverge roadReconA ≠ 0 ∧
    road_target envReconverge roadReconB ≠ 0 ∧
    IsTrafficLoop envReconverge 0 roadReconA = false ∧
    IsTrafficLoop envReconverge 0 roadReconB = false ∧
    ConnectAgain envReconverge 0 roadReconA roadReconB = true ∧
    CanMergeRoad envReconverge 0 roadReconA roadReconB = some true :=
  ⟨by decide, by decide, by decide, by decide, by decide, by decide, by decide,
    by decide, by decide,
    connectAgain_overrides_later_checks envReconverge 0 roadReconA roadReconB
      (by decide) (by decide) (by decide) (by decide) (by decide) (by decide)
      (by decide) (by decide) (by decide)⟩

/-- C9: the orchestrator rejects outright when the edge data are
incompatible, and its verdict is unchanged when the narrow-triangle
selection strategy is built from the right-hand road's name identifier
instead of the left-hand one: by the time the strategy matters the two
name identifiers coincide. -/
theorem canMergeRoad_selector_name_invariant (env : Env) (n : NodeID)
    (lhs rhs : MergableRoadData) :
    (RoadDataIsCompatible (env.getEdgeData lhs.eid) (env.getEdgeData rhs.eid) = false →
       CanMergeRoad env n lhs rhs = some false) ∧
    CanMergeRoad env n lhs rhs = CanMergeRoadSelectorFromRhs env n lhs rhs := by
  constructor
  · intro hc
    simp only [CanMergeRoad]
    split_ifs with g1 g2 g3 <;> simp_all
  · by_cases hc : RoadDataIsCompatible (env.getEdgeData lhs.eid)
        (env.getEdgeData rhs.eid) = true
    · have hname := name_id_eq_of_compatible hc
      simp only [CanMergeRoad, CanMergeRoadSelectorFromRhs, IsNarrowTriangle, hname]
    · simp only [CanMergeRoad, CanMergeRoadSelectorFromRhs]
      by_cases g1 : angularDeviation lhs.bearing rhs.bearing > 95
      · rw [if_pos g1, if_pos g1]
      · rw [if_neg g1, if_neg g1]
        by_cases g2 : ((env.getEdgeData lhs.eid).roundabout = true ∨
            (env.getEdgeData rhs.eid).roundabout = true)
        · rw [if_pos g2, if_pos g2]
        · rw [if_neg g2, if_neg g2, if_pos hc, if_pos hc]

end MergableRoad

namespace MergableRoad

/-- C9 witness: at a concrete incompatible input the orchestrator rejects,
via the invariant theorem. -/
theorem canMergeRoad_selector_name_invariant_witness :
    RoadDataIsCompatible (baseEnv.getEdgeData roadZero.eid)
      (baseEnv.getEdgeData roadOne.eid) = false ∧
    CanMergeRoad baseEnv 0 roadZero roadOne = some false :=
  ⟨by decide,
   (canMergeRoad_selector_name_invariant baseEnv 0 roadZero roadOne).1 (by decide)⟩

/-- C7: IsLinkRoad always produces a verdict, and accepts exactly when a
differently-named continuation closest to straight-ahead exists, its
near-opposite road does not lead back to the node the walk arrived from,
the two angular deviations are distinguishable beyond the fuzzy tolerance,
the continuation and its opposite deviate by at least 160 degrees, and the
two are mutually RoadDataIsCompatible. -/
theorem isLinkRoad_characterization (env : Env) (n : NodeID)
    (road : MergableRoadData) :
    (IsLinkRoad env n road).isSome = true ∧
    (IsLinkRoad env n road = some true ↔
      ∃ nextRoad opposite : IntersectionRoad,
        findClosestTurnFilter (linkIntersection env n road) STRAIGHT_ANGLE
          (makeCheckRoadForName ((env.getEdgeData road.eid).name_id) env) = some nextRoad ∧
        findClosestTurn (linkIntersection env n road)
          (restrictAngleToValidRange (nextRoad.angle + 180)) = some opposite ∧
        env.getTarget opposite.eid ≠ (skipDegreeTwoNodes env n road.eid).nid ∧
        ¬ (angularDeviation (angularDeviation nextRoad.angle 180)
            (angularDeviation opposite.angle 0) < FUZZY_ANGLE_DIFFERENCE) ∧
        angularDeviation opposite.angle nextRoad.angle ≥ 160 ∧
        RoadDataIsCompatible (env.getEdgeData nextRoad.eid)
          (env.getEdgeData opposite.eid) = true) := by
  rcases hfind : findClosestTurnFilter (linkIntersection env n road) STRAIGHT_ANGLE
      (makeCheckRoadForName ((env.getEdgeData road.eid).name_id) env) with _ | nextRoad
  · constructor
    · simp [IsLinkRoad, hfind]
    · constructor
      · intro h
        simp [IsLinkRoad, hfind] at h
      · rintro ⟨nr, op, hf, -⟩
        exact absurd hf (by simp)
  · have hne := ne_nil_of_findClosestTurnFilter_eq_some hfind
    obtain ⟨opposite, hop⟩ := Option.isSome_iff_exists.mp
      (findClosestTurn_isSome (restrictAngleToValidRange (nextRoad.angle + 180)) hne)
    simp only [IsLinkRoad, hfind, hop]
    constructor
    · split_ifs <;> rfl
    · split_ifs with t1 t2
      · constructor
        · intro h; exact absurd h (by simp)
        · rintro ⟨nr, op, hf, ho, hneq, -⟩
          rw [Option.some.injEq] at hf
          subst hf
          rw [hop, Option.some.injEq] at ho
          subst ho
          exact absurd t1 hneq
      · constructor
        · intro h; exact absurd h (by simp)
        · rintro ⟨nr, op, hf, ho, -, hfz, -⟩
          rw [Option.some.injEq] at hf
          subst hf
          rw [hop, Option.some.injEq] at ho
          subst ho
          exact absurd t2 hfz
      · rw [Option.some.injEq, Bool.and_eq_true, decide_eq_true_eq]
        constructor
        · rintro ⟨hang, hcomp⟩
          exact ⟨nextRoad, opposite, rfl, hop, t1, t2, hang, hcomp⟩
        · rintro ⟨nr, op, hf, ho, -, -, hang, hcomp⟩
          rw [Option.some.injEq] at hf
          subst hf
          rw [hop, Option.some.injEq] at ho
          subst ho
          exact ⟨hang, hcomp⟩

end MergableRoad

namespace MergableRoad

theorem trianglePart_total (env : Env) (selName : NameID) (selBearing : ℚ)
    (start : NodeID) (eid : EdgeID) (cornerAngle : ℚ)
    (h : ∀ (s e : NodeID) (nm : NameID) (b : ℚ), (env.walkIF s e nm b).intersection ≠ []) :
    ∃ r, trianglePart env selName selBearing start eid cornerAngle = some r ∧
      r.intersection ≠ [] := by
  obtain ⟨t, ht⟩ := Option.isSome_iff_exists.mp
    (findClosestTurn_isSome cornerAngle (h start eid selName selBearing))
  simp only [trianglePart, ht]
  split_ifs with hdev
  · obtain ⟨t180, ht180⟩ := Option.isSome_iff_exists.mp
      (findClosestTurn_isSome 180 (h start eid selName selBearing))
    rw [ht180]
    exact ⟨_, rfl, h _ _ _ _⟩
  · exact ⟨_, rfl, h _ _ _ _⟩

/-- C10: whenever every intersection produced by the bounded road walks is
nonempty, all closest-turn lookups inside IsNarrowTriangle succeed and the
predicate produces a verdict: the not-found branches are unreachable. -/
theorem isNarrowTriangle_total_of_nonempty (env : Env) (n : NodeID)
    (lhs rhs : MergableRoadData)
    (h : ∀ (s e : NodeID) (nm : NameID) (b : ℚ), (env.walkIF s e nm b).intersection ≠ []) :
    (IsNarrowTriangle env n lhs rhs).isSome = true := by
  obtain ⟨leftA, hL, hLne⟩ :=
    trianglePart_total env ((env.getEdgeData lhs.eid).name_id) lhs.bearing n lhs.eid 90 h
  obtain ⟨rightA, hR, -⟩ :=
    trianglePart_total env ((env.getEdgeData lhs.eid).name_id) lhs.bearing n rhs.eid 270 h
  obtain ⟨c, hc⟩ := Option.isSome_iff_exists.mp (findClosestTurn_isSome 90 hLne)
  simp only [IsNarrowTriangle, IsNarrowTriangleWith, hL, hR, hc]
  split_ifs <;> rfl

/-- C10 witness: a concrete environment with always-nonempty walk results,
on which IsNarrowTriangle produces a verdict. -/
theorem isNarrowTriangle_total_witness :
    (∀ (s e : NodeID) (nm : NameID) (b : ℚ),
        (envWalkNonempty.walkIF s e nm b).intersection ≠ []) ∧
    (IsNarrowTriangle envWalkNonempty 0 roadZero roadOne).isSome = true :=
  ⟨fun _ _ _ _ => List.cons_ne_nil _ _,
   isNarrowTriangle_total_of_nonempty envWalkNonempty 0 roadZero roadOne
     (fun _ _ _ _ => List.cons_ne_nil _ _)⟩

unseal Rat.add Rat.mul Rat.sub Rat.inv in
/-- C6: a left corner strictly farther than 80 m from the intersection
forces rejection, while a left corner at exactly 80 m does not trigger this
rejection: the triangle environment with corner distance exactly 80 is
accepted. -/
theorem isNarrowTriangle_compactness :
    (∀ (env : Env) (n : NodeID) (lhs rhs : MergableRoadData) (acc : IFResult),
        trianglePart env ((env.getEdgeData lhs.eid).name_id) lhs.bearing n lhs.eid 90 =
          some acc →
        env.haversineDistance (env.nodeCoordinates n)
            (env.nodeCoordinates (env.getTarget acc.via_edge_id)) > 80 →
        IsNarrowTriangle env n lhs rhs = some false) ∧
    (envTriangle.haversineDistance (envTriangle.nodeCoordinates 0)
        (envTriangle.nodeCoordinates (envTriangle.getTarget 10)) = 80 ∧
     trianglePart envTriangle ((envTriangle.getEdgeData roadTriL.eid).name_id)
        roadTriL.bearing 0 roadTriL.eid 90 = some ⟨10, [⟨20, 90⟩]⟩ ∧
     IsNarrowTriangle envTriangle 0 roadTriL roadTriR = some true) := by
  constructor
  · intro env n lhs rhs acc hacc hdist
    simp only [IsNarrowTriangle, IsNarrowTriangleWith, hacc]
    rw [if_pos hdist]
  · exact ⟨by decide, by decide, by decide⟩

unseal Rat.add Rat.mul Rat.sub Rat.inv in
/-- C6 witness: with the left corner at 80.01 m the distance exceeds 80 and
the predicate rejects, through the compactness theorem. -/
theorem isNarrowTriangle_compactness_witness :
    trianglePart envTriangleFar ((envTriangleFar.getEdgeData roadTriL.eid).name_id)
        roadTriL.bearing 0 roadTriL.eid 90 = some ⟨10, [⟨20, 90⟩]⟩ ∧
    envTriangleFar.haversineDistance (envTriangleFar.nodeCoordinates 0)
        (envTriangleFar.nodeCoordinates (envTriangleFar.getTarget 10)) > 80 ∧
    IsNarrowTriangle envTriangleFar 0 roadTriL roadTriR = some false :=
  ⟨by decide, by decide,
   isNarrowTriangle_compactness.1 envTriangleFar 0 roadTriL roadTriR ⟨10, [⟨20, 90⟩]⟩
     (by decide) (by decide)⟩

end MergableRoad
